import Mathlib

/-!
Verification of the PDF-to-Gemini pipeline script (`index.py`).

The script is a single synchronous function `procesar_pdf_con_vision_y_gemini`
that opens a PDF, rasterizes and OCRs each page, joins the per-page texts with
blank lines, posts the joined text to the Gemini HTTP endpoint and unwraps the
nested response JSON defensively, returning either the extracted text or a
descriptive error string.

The embedding below turns every external effect into explicit input data:

* the outcome of `fitz.open` (`OpenResult`);
* per page, the outcome of the rasterize + Vision OCR step (`PageOutcome`,
  where `VisionResponse` carries `error.message` and the optional
  `full_text_annotation` text);
* the outcome of the single `requests.post` (`HttpOutcome`: either the post
  itself raised a `RequestException`, or a response object with a status code,
  raw body text, and the result of parsing the body as JSON).

Python values produced by `json` parsing are modelled by the inductive `JSON`;
Python exceptions relevant to the script by `PyExc`.  The function body is
`cuerpo`, returning `Except PyExc JSON` (the returned Python value, or an
exception escaping every inner handler) together with a `Bool` recording
whether the `requests.post` call was reached.  The outermost
`except Exception` handler is applied by `procesar_pdf_con_vision_y_gemini`.

One behaviour needs care to model faithfully: when `requests.post` itself
raises, the local variable `response_gemini` was never assigned, so the
handler line `if response_gemini is not None:` raises `UnboundLocalError`,
which only the outermost handler catches.
-/

/-- Python values produced by `json` parsing (dicts are association lists in
document order; numbers are modelled as integers). -/
inductive JSON where
  | null : JSON
  | bool : Bool → JSON
  | num : Int → JSON
  | str : String → JSON
  | arr : List JSON → JSON
  | obj : List (String × JSON) → JSON

/-- Python exceptions the script can raise, with their messages or payloads. -/
inductive PyExc where
  | keyError : String → PyExc
  | indexError : String → PyExc
  | typeError : String → PyExc
  | attributeError : String → PyExc
  | unboundLocal : String → PyExc
deriving DecidableEq

/-- Python type name of a `JSON` value, as used in exception messages. -/
def JSON.pyTypeName : JSON → String
  | .null => "NoneType"
  | .bool _ => "bool"
  | .num _ => "int"
  | .str _ => "str"
  | .arr _ => "list"
  | .obj _ => "dict"

/-- Is this Python value a `str`? -/
def JSON.isStr : JSON → Bool
  | .str _ => true
  | _ => false

/-- Python truthiness of a `JSON` value (`if x:`). -/
def JSON.truthy : JSON → Bool
  | .null => false
  | .bool b => b
  | .num n => n != 0
  | .str s => s != ""
  | .arr xs => !xs.isEmpty
  | .obj fs => !fs.isEmpty

mutual

/-- Python `str()` of a parsed-JSON value (dict/list repr; string escaping
inside quotes is elided, which no claim observes). -/
def JSON.pyStr : JSON → String
  | .null => "None"
  | .bool true => "True"
  | .bool false => "False"
  | .num n => toString n
  | .str s => "'" ++ s ++ "'"
  | .arr xs => "[" ++ pyStrElems xs ++ "]"
  | .obj fs => "\x7b" ++ pyStrPairs fs ++ "\x7d"

/-- Comma-separated `str()` of list elements. -/
def pyStrElems : List JSON → String
  | [] => ""
  | [x] => JSON.pyStr x
  | x :: y :: rest => JSON.pyStr x ++ ", " ++ pyStrElems (y :: rest)

/-- Comma-separated `str()` of dict entries. -/
def pyStrPairs : List (String × JSON) → String
  | [] => ""
  | [(k, v)] => "'" ++ k ++ "': " ++ JSON.pyStr v
  | (k, v) :: p :: rest => "'" ++ k ++ "': " ++ JSON.pyStr v ++ ", " ++ pyStrPairs (p :: rest)

end

/-- Python `d.get(k, default)`: dict lookup with default; `AttributeError`
when the receiver is not a dict. -/
def dictGet (j : JSON) (k : String) (d : JSON) : Except PyExc JSON :=
  match j with
  | .obj fs => .ok ((fs.lookup k).getD d)
  | _ => .error (.attributeError ("'" ++ j.pyTypeName ++ "' object has no attribute 'get'"))

/-- Python `x[0]` on a parsed-JSON value. -/
def pyIndexZero : JSON → Except PyExc JSON
  | .arr [] => .error (.indexError "list index out of range")
  | .arr (x :: _) => .ok x
  | .str s =>
      match s.data with
      | [] => .error (.indexError "string index out of range")
      | c :: _ => .ok (.str (String.mk [c]))
  | .obj _ => .error (.keyError "0")
  | .null => .error (.typeError "'NoneType' object is not subscriptable")
  | .bool _ => .error (.typeError "'bool' object is not subscriptable")
  | .num _ => .error (.typeError "'int' object is not subscriptable")

/-- Python `x[k]` with a string key. -/
def pySubscriptStr (j : JSON) (k : String) : Except PyExc JSON :=
  match j with
  | .obj fs =>
      match fs.lookup k with
      | some v => .ok v
      | none => .error (.keyError k)
  | .arr _ => .error (.typeError "list indices must be integers or slices, not str")
  | .str _ => .error (.typeError "string indices must be integers")
  | _ => .error (.typeError ("'" ++ j.pyTypeName ++ "' object is not subscriptable"))

/-- The Vision OCR response for one page: `error.message` (empty string when
no error) and the text of `full_text_annotation` when the annotation is
present. -/
structure VisionResponse where
  errorMessage : String
  fullText : Option String
deriving DecidableEq

/-- Outcome of processing one page inside the loop: either some step raised
(caught by the per-page handler) or the OCR call returned a response. -/
inductive PageOutcome where
  | pageExc : String → PageOutcome
  | ocr : VisionResponse → PageOutcome
deriving DecidableEq

/-- Outcome of `fitz.open(pdf_path)`. -/
inductive OpenResult where
  | fileNotFound : OpenResult
  | openExc : String → OpenResult
  | opened : List PageOutcome → OpenResult
deriving DecidableEq

/-- The HTTP response object obtained from `requests.post`: status code,
reason phrase, raw body text, the parse of the body as JSON (`none` models a
`JSONDecodeError`, whose message is `jsonErrorMsg`). -/
structure HttpResponse where
  statusCode : Nat
  reason : String
  bodyText : String
  bodyJson : Option JSON
  jsonErrorMsg : String

/-- Outcome of the `requests.post` call: the call itself raised a
`RequestException` (no response object ever bound), or a response object. -/
inductive HttpOutcome where
  | postRaises : String → HttpOutcome
  | response : HttpResponse → HttpOutcome

/-- All environment inputs of one run of the pipeline function. -/
structure RunInput where
  pdfPath : String
  apiKey : String
  openResult : OpenResult
  http : HttpOutcome

/-- The pipeline's observable outcome: the Python value it returns, and
whether the `requests.post` call was reached. -/
structure RunResult where
  result : JSON
  llmCalled : Bool

/-- The text contributed by one page, if any: pages whose processing raised,
whose OCR reported an error message, whose annotation is absent, or whose
annotation text is empty contribute nothing (lines 44-69 of the source). -/
def pageText (p : PageOutcome) : Option String :=
  match p with
  | .pageExc _ => none
  | .ocr v =>
      if v.errorMessage ≠ "" then none
      else
        match v.fullText with
        | some t => if t ≠ "" then some t else none
        | none => none

/-- The ordered list `textos_por_pagina` built by the page loop. -/
def textos_por_pagina : List PageOutcome → List String
  | [] => []
  | p :: rest =>
      match pageText p with
      | some t => t :: textos_por_pagina rest
      | none => textos_por_pagina rest

/-- `texto_completo = "\n\n".join(textos_por_pagina)` (line 73). -/
def texto_completo (pages : List PageOutcome) : String :=
  String.intercalate "\n\n" (textos_por_pagina pages)

/-- The fixed Gemini endpoint URL constant of the script. -/
def GEMINI_API_URL : String :=
  "https://generativelanguage.googleapis.com/v1beta/models/gemini-1.5-flash:generateContent"

/-- The URL of the request as `requests` reports it in error messages
(the API key travels as the `key` query parameter). -/
def requestUrl (apiKey : String) : String :=
  GEMINI_API_URL ++ "?key=" ++ apiKey

/-- The message of the `HTTPError` raised by `raise_for_status` for a 4xx/5xx
status, as `requests` builds it. -/
def httpErrorMessage (r : HttpResponse) (url : String) : String :=
  if r.statusCode < 500 then
    toString r.statusCode ++ " Client Error: " ++ r.reason ++ " for url: " ++ url
  else
    toString r.statusCode ++ " Server Error: " ++ r.reason ++ " for url: " ++ url

/-- Message of a Python exception (`str(e)`). -/
def pyExcMsg : PyExc → String
  | .keyError k => "'" ++ k ++ "'"
  | .indexError m => m
  | .typeError m => m
  | .attributeError m => m
  | .unboundLocal v =>
      "cannot access local variable '" ++ v ++ "' where it is not associated with a value"

/-- The response-unwrapping block (lines 103-112) before its
`except (KeyError, IndexError, TypeError)` handler is applied. -/
def procesarRespuestaInner (response_json : JSON) : Except PyExc JSON :=
  match dictGet response_json "candidates" (.arr []) with
  | .error e => .error e
  | .ok candidates =>
      if candidates.truthy then
        match pyIndexZero candidates with
        | .error e => .error e
        | .ok c0 =>
            match pySubscriptStr c0 "content" with
            | .error e => .error e
            | .ok content =>
                match dictGet content "parts" (.arr []) with
                | .error e => .error e
                | .ok parts =>
                    if parts.truthy then
                      match pyIndexZero parts with
                      | .error e => .error e
                      | .ok p0 => dictGet p0 "text" (.str "Respuesta de Gemini sin texto.")
                    else .ok (.str "Error: Respuesta de Gemini sin 'parts'.")
      else .ok (.str "Error: Respuesta de Gemini sin 'candidates'.")

/-- The response-unwrapping step with its `except (KeyError, IndexError,
TypeError)` handler (lines 113-115); other exceptions (`AttributeError`)
escape to the outermost handler. -/
def procesarRespuesta (response_json : JSON) : Except PyExc JSON :=
  match procesarRespuestaInner response_json with
  | .ok v => .ok v
  | .error (.keyError _) =>
      .ok (.str ("Respuesta completa de Gemini (para depuración):\n" ++ response_json.pyStr))
  | .error (.indexError _) =>
      .ok (.str ("Respuesta completa de Gemini (para depuración):\n" ++ response_json.pyStr))
  | .error (.typeError _) =>
      .ok (.str ("Respuesta completa de Gemini (para depuración):\n" ++ response_json.pyStr))
  | .error e => .error e

/-- The body of `procesar_pdf_con_vision_y_gemini` inside the outermost
`try` (lines 31-115): the value returned or the exception escaping every
inner handler, paired with whether the `requests.post` call was reached. -/
def cuerpo (inp : RunInput) : Except PyExc JSON × Bool :=
  match inp.openResult with
  | .fileNotFound =>
      (.ok (.str ("Error: No se encontró el archivo PDF en la ruta: " ++ inp.pdfPath)), false)
  | .openExc m => (.ok (.str ("Error al abrir el PDF: " ++ m)), false)
  | .opened pages =>
      if texto_completo pages = "" then
        (.ok (.str "Advertencia: No se pudo extraer texto de ninguna página del PDF."), false)
      else
        match inp.http with
        | .postRaises _ =>
            (.error (.unboundLocal "response_gemini"), true)
        | .response r =>
            if 400 ≤ r.statusCode ∧ r.statusCode < 600 then
              match r.bodyJson with
              | some j =>
                  (.ok (.str ("Error en la solicitud a la API de Gemini: "
                    ++ (httpErrorMessage r (requestUrl inp.apiKey)
                      ++ ("\nDetalles del error: " ++ JSON.pyStr j)))), true)
              | none =>
                  (.ok (.str ("Error en la solicitud a la API de Gemini: "
                    ++ httpErrorMessage r (requestUrl inp.apiKey)
                    ++ "\nCódigo de estado: " ++ toString r.statusCode
                    ++ "\nRespuesta (no JSON): " ++ r.bodyText)), true)
            else
              match r.bodyJson with
              | none =>
                  (.ok (.str ("Error en la solicitud a la API de Gemini: "
                    ++ r.jsonErrorMsg
                    ++ "\nCódigo de estado: " ++ toString r.statusCode
                    ++ "\nRespuesta (no JSON): " ++ r.bodyText)), true)
              | some response_json => (procesarRespuesta response_json, true)

/-- The whole pipeline function: `cuerpo` wrapped in the outermost
`except Exception` handler (lines 117-118). -/
def procesar_pdf_con_vision_y_gemini (inp : RunInput) : RunResult :=
  match cuerpo inp with
  | (.ok v, b) => ⟨v, b⟩
  | (.error e, b) => ⟨.str ("Error general al procesar el PDF: " ++ pyExcMsg e), b⟩

/-- Does `pat` occur as a contiguous prefix of `l`? -/
def isPrefixChars : List Char → List Char → Bool
  | [], _ => true
  | _ :: _, [] => false
  | a :: as, b :: bs => a == b && isPrefixChars as bs

/-- Does `pat` occur contiguously anywhere in `l`? -/
def occursIn (pat : List Char) : List Char → Bool
  | [] => pat.isEmpty
  | c :: rest => isPrefixChars pat (c :: rest) || occursIn pat rest

/-- Does the string `s` contain `pat` as a contiguous substring? -/
def strContainsSub (s pat : String) : Bool :=
  occursIn pat.data s.data

/-! ### Helper lemmas -/

theorem strDataAppend (a b : String) : (a ++ b).data = a.data ++ b.data := rfl

theorem isPrefixChars_self_append (p rest : List Char) :
    isPrefixChars p (p ++ rest) = true := by
  induction p with
  | nil => rfl
  | cons c cs ih => simp [isPrefixChars, ih]

theorem occursIn_here (pat b : List Char) : occursIn pat (pat ++ b) = true := by
  cases pat with
  | nil =>
      cases b with
      | nil => rfl
      | cons c bs => simp [occursIn, isPrefixChars]
  | cons q qs => simp [occursIn, isPrefixChars, isPrefixChars_self_append]

theorem occursIn_middle (a pat b : List Char) : occursIn pat (a ++ (pat ++ b)) = true := by
  induction a with
  | nil => simpa using occursIn_here pat b
  | cons c cs ih => simp [occursIn, ih]

theorem occursIn_tail (pat s t : List Char) (h : occursIn pat t = true) :
    occursIn pat (s ++ t) = true := by
  induction s with
  | nil => simpa using h
  | cons c cs ih => simp [occursIn, ih]

theorem occursIn_end (a pat : List Char) : occursIn pat (a ++ pat) = true := by
  simpa using occursIn_middle a pat []

theorem strContainsSub_parts (a pat b : String) :
    strContainsSub (a ++ (pat ++ b)) pat = true := by
  show occursIn pat.data (a.data ++ (pat.data ++ b.data)) = true
  exact occursIn_middle a.data pat.data b.data

theorem textos_map_ocr (ts : List String) :
    (∀ t ∈ ts, t ≠ "") →
      textos_por_pagina (ts.map fun t => PageOutcome.ocr ⟨"", some t⟩) = ts := by
  induction ts with
  | nil => intro _; rfl
  | cons a rest ih =>
      intro h
      have ha : a ≠ "" := h a (by simp)
      have hr := ih (fun t ht => h t (by simp [ht]))
      simp [textos_por_pagina, pageText, ha, hr]

theorem textos_append_errorpage (pre post : List PageOutcome) (m : String) (ft : Option String)
    (hm : m ≠ "") :
    textos_por_pagina (pre ++ PageOutcome.ocr ⟨m, ft⟩ :: post)
      = textos_por_pagina pre ++ textos_por_pagina post := by
  induction pre with
  | nil => simp [textos_por_pagina, pageText, hm]
  | cons p rest ih =>
      cases hp : pageText p with
      | some t => simp [textos_por_pagina, hp, ih]
      | none => simp [textos_por_pagina, hp, ih]

/-! ### Claim theorems -/

/-- Claim C1: when the list of per-page OCR texts is empty (so the joined
aggregated text is the empty string), the pipeline returns the fixed warning
string for "no text extracted from any page" and the LLM request step is
never reached.  Since `pages` and `http` are universally quantified, this
also states that the LLM call is attempted only when the aggregated text is
non-empty: whenever the text list is empty the post is never reached,
whatever the HTTP environment would have answered. -/
theorem c1_texto_vacio_sin_llm (pdfPath apiKey : String) (pages : List PageOutcome)
    (http : HttpOutcome) (hempty : textos_por_pagina pages = []) :
    (procesar_pdf_con_vision_y_gemini ⟨pdfPath, apiKey, .opened pages, http⟩).result
        = .str "Advertencia: No se pudo extraer texto de ninguna página del PDF."
    ∧ (procesar_pdf_con_vision_y_gemini ⟨pdfPath, apiKey, .opened pages, http⟩).llmCalled
        = false := by
  have htc : texto_completo pages = "" := by
    rw [texto_completo, hempty]
    rfl
  constructor
  · simp [procesar_pdf_con_vision_y_gemini, cuerpo, htc]
  · simp [procesar_pdf_con_vision_y_gemini, cuerpo, htc]

/-- Witness for C1: a one-page document whose OCR reported an error, so no
text was collected; the warning is returned and the LLM is not called. -/
theorem c1_texto_vacio_sin_llm_witness :
    (procesar_pdf_con_vision_y_gemini ⟨"orestes.pdf", "clave",
        .opened [.ocr ⟨"fallo ocr", some "x"⟩], .postRaises "boom"⟩).result
        = .str "Advertencia: No se pudo extraer texto de ninguna página del PDF."
    ∧ (procesar_pdf_con_vision_y_gemini ⟨"orestes.pdf", "clave",
        .opened [.ocr ⟨"fallo ocr", some "x"⟩], .postRaises "boom"⟩).llmCalled
        = false :=
  c1_texto_vacio_sin_llm "orestes.pdf" "clave" [.ocr ⟨"fallo ocr", some "x"⟩]
    (.postRaises "boom") (by decide)

/-- Claim C3: when every page yields non-empty OCR text T1..Tn, the page
loop collects exactly those texts in original ascending page order and the
aggregated text equals their join with a blank-line (two newline) separator
between consecutive entries. -/
theorem c3_orden_y_union (ts : List String) (h : ∀ t ∈ ts, t ≠ "") :
    textos_por_pagina (ts.map fun t => PageOutcome.ocr ⟨"", some t⟩) = ts
    ∧ texto_completo (ts.map fun t => PageOutcome.ocr ⟨"", some t⟩)
        = String.intercalate "\n\n" ts := by
  have hmain := textos_map_ocr ts h
  exact ⟨hmain, by rw [texto_completo, hmain]⟩

/-- Witness for C3: three pages with texts "T1", "T2", "T3" aggregate to
the literal string with double-newline separators, in order. -/
theorem c3_orden_y_union_witness :
    texto_completo [PageOutcome.ocr ⟨"", some "T1"⟩, PageOutcome.ocr ⟨"", some "T2"⟩,
        PageOutcome.ocr ⟨"", some "T3"⟩] = "T1\n\nT2\n\nT3" := by
  have h := c3_orden_y_union ["T1", "T2", "T3"] (by decide)
  exact h.2.trans (by decide)

/-- Claim C8: a page whose OCR call reports a service error message
contributes no text; the pages before and after it are processed normally,
so the collected sequence (and hence the aggregated text) is exactly the
one of the remaining pages, in order, with the failed page's content
excluded. -/
theorem c8_pagina_con_error_omitida (pre post : List PageOutcome) (m : String)
    (ft : Option String) (hm : m ≠ "") :
    textos_por_pagina (pre ++ PageOutcome.ocr ⟨m, ft⟩ :: post)
        = textos_por_pagina pre ++ textos_por_pagina post
    ∧ texto_completo (pre ++ PageOutcome.ocr ⟨m, ft⟩ :: post)
        = String.intercalate "\n\n" (textos_por_pagina pre ++ textos_por_pagina post) := by
  have hmain := textos_append_errorpage pre post m ft hm
  exact ⟨hmain, by rw [texto_completo, hmain]⟩

/-- Witness for C8: page 2 of three reports an OCR error; the aggregated
text keeps pages 1 and 3 only, in order. -/
theorem c8_pagina_con_error_omitida_witness :
    textos_por_pagina [PageOutcome.ocr ⟨"", some "uno"⟩,
        PageOutcome.ocr ⟨"cuota excedida", some "dos"⟩, PageOutcome.ocr ⟨"", some "tres"⟩]
        = ["uno", "tres"]
    ∧ texto_completo [PageOutcome.ocr ⟨"", some "uno"⟩,
        PageOutcome.ocr ⟨"cuota excedida", some "dos"⟩, PageOutcome.ocr ⟨"", some "tres"⟩]
        = "uno\n\ntres" := by
  have h := c8_pagina_con_error_omitida [PageOutcome.ocr ⟨"", some "uno"⟩]
    [PageOutcome.ocr ⟨"", some "tres"⟩] "cuota excedida" (some "dos") (by decide)
  exact ⟨h.1.trans (by decide), h.2.trans (by decide)⟩

/-- Claim C2: for a response whose JSON has a non-empty `candidates` list
whose first element has a `content` object with a non-empty `parts` list
whose first element has a `text` field, the pipeline returns exactly that
text value, unmodified. -/
theorem c2_texto_exacto (pdfPath apiKey : String) (pages : List PageOutcome)
    (code : Nat) (reason body jem t : String)
    (fs cf contf p0f : List (String × JSON)) (cs ps : List JSON)
    (hne : texto_completo pages ≠ "")
    (hcode : ¬(400 ≤ code ∧ code < 600))
    (hcand : fs.lookup "candidates" = some (.arr (.obj cf :: cs)))
    (hcont : cf.lookup "content" = some (.obj contf))
    (hparts : contf.lookup "parts" = some (.arr (.obj p0f :: ps)))
    (htext : p0f.lookup "text" = some (.str t)) :
    (procesar_pdf_con_vision_y_gemini ⟨pdfPath, apiKey, .opened pages,
        .response ⟨code, reason, body, some (.obj fs), jem⟩⟩).result
      = .str t := by
  simp [procesar_pdf_con_vision_y_gemini, cuerpo, hne, hcode, procesarRespuesta,
    procesarRespuestaInner, dictGet, pySubscriptStr, pyIndexZero, JSON.truthy,
    hcand, hcont, hparts, htext]

/-- Witness for C2: a well-formed success response; the pipeline returns the
text value "Ativos totais: 42" exactly. -/
theorem c2_texto_exacto_witness :
    (procesar_pdf_con_vision_y_gemini ⟨"orestes.pdf", "clave",
        .opened [.ocr ⟨"", some "balance"⟩],
        .response ⟨200, "OK", "cuerpo", some (.obj [("candidates",
          .arr [.obj [("content", .obj [("parts",
            .arr [.obj [("text", .str "Ativos totais: 42")]])])]])]), "jerr"⟩⟩).result
      = .str "Ativos totais: 42" :=
  c2_texto_exacto "orestes.pdf" "clave" [.ocr ⟨"", some "balance"⟩] 200 "OK" "cuerpo" "jerr"
    "Ativos totais: 42" [("candidates",
      .arr [.obj [("content", .obj [("parts", .arr [.obj [("text", .str "Ativos totais: 42")]])])]])]
    [("content", .obj [("parts", .arr [.obj [("text", .str "Ativos totais: 42")]])])]
    [("parts", .arr [.obj [("text", .str "Ativos totais: 42")]])]
    [("text", .str "Ativos totais: 42")] [] []
    (by decide) (by decide) rfl rfl rfl rfl

/-- Claim C5: for a response JSON object in which the `candidates` key is
entirely absent, the pipeline returns the specific error string stating the
response has no candidates. -/
theorem c5_sin_candidates (pdfPath apiKey : String) (pages : List PageOutcome)
    (code : Nat) (reason body jem : String) (fs : List (String × JSON))
    (hne : texto_completo pages ≠ "")
    (hcode : ¬(400 ≤ code ∧ code < 600))
    (hcand : fs.lookup "candidates" = none) :
    (procesar_pdf_con_vision_y_gemini ⟨pdfPath, apiKey, .opened pages,
        .response ⟨code, reason, body, some (.obj fs), jem⟩⟩).result
      = .str "Error: Respuesta de Gemini sin 'candidates'." := by
  simp [procesar_pdf_con_vision_y_gemini, cuerpo, hne, hcode, procesarRespuesta,
    procesarRespuestaInner, dictGet, JSON.truthy, hcand]

/-- Witness for C5: an error-shaped response body with no candidates key. -/
theorem c5_sin_candidates_witness :
    (procesar_pdf_con_vision_y_gemini ⟨"orestes.pdf", "clave",
        .opened [.ocr ⟨"", some "balance"⟩],
        .response ⟨200, "OK", "cuerpo", some (.obj [("promptFeedback", .str "BLOCK")]),
          "jerr"⟩⟩).result
      = .str "Error: Respuesta de Gemini sin 'candidates'." :=
  c5_sin_candidates "orestes.pdf" "clave" [.ocr ⟨"", some "balance"⟩] 200 "OK" "cuerpo" "jerr"
    [("promptFeedback", .str "BLOCK")] (by decide) (by decide) rfl

/-- Claim C6: for a response whose `candidates` list is present and
non-empty but whose first candidate's `content` object has no `parts` key
(the place `parts` lives in the response schema), the pipeline returns the
specific error string stating the response has no parts. -/
theorem c6_sin_parts (pdfPath apiKey : String) (pages : List PageOutcome)
    (code : Nat) (reason body jem : String)
    (fs cf contf : List (String × JSON)) (cs : List JSON)
    (hne : texto_completo pages ≠ "")
    (hcode : ¬(400 ≤ code ∧ code < 600))
    (hcand : fs.lookup "candidates" = some (.arr (.obj cf :: cs)))
    (hcont : cf.lookup "content" = some (.obj contf))
    (hparts : contf.lookup "parts" = none) :
    (procesar_pdf_con_vision_y_gemini ⟨pdfPath, apiKey, .opened pages,
        .response ⟨code, reason, body, some (.obj fs), jem⟩⟩).result
      = .str "Error: Respuesta de Gemini sin 'parts'." := by
  simp [procesar_pdf_con_vision_y_gemini, cuerpo, hne, hcode, procesarRespuesta,
    procesarRespuestaInner, dictGet, pySubscriptStr, JSON.truthy,
    pyIndexZero, hcand, hcont, hparts]

/-- Witness for C6: one candidate whose content object has no parts key. -/
theorem c6_sin_parts_witness :
    (procesar_pdf_con_vision_y_gemini ⟨"orestes.pdf", "clave",
        .opened [.ocr ⟨"", some "balance"⟩],
        .response ⟨200, "OK", "cuerpo", some (.obj [("candidates",
          .arr [.obj [("content", .obj [("role", .str "model")])]])]), "jerr"⟩⟩).result
      = .str "Error: Respuesta de Gemini sin 'parts'." :=
  c6_sin_parts "orestes.pdf" "clave" [.ocr ⟨"", some "balance"⟩] 200 "OK" "cuerpo" "jerr"
    [("candidates", .arr [.obj [("content", .obj [("role", .str "model")])]])]
    [("content", .obj [("role", .str "model")])] [("role", .str "model")] []
    (by decide) (by decide) rfl rfl rfl

/-- Claim C10: for a response whose first candidate has a content object
with a non-empty parts list whose first part (a dict) lacks a `text` key,
the pipeline returns the fixed fallback string "Respuesta de Gemini sin
texto." rather than raising or returning a missing-level error string. -/
theorem c10_parte_sin_texto (pdfPath apiKey : String) (pages : List PageOutcome)
    (code : Nat) (reason body jem : String)
    (fs cf contf p0f : List (String × JSON)) (cs ps : List JSON)
    (hne : texto_completo pages ≠ "")
    (hcode : ¬(400 ≤ code ∧ code < 600))
    (hcand : fs.lookup "candidates" = some (.arr (.obj cf :: cs)))
    (hcont : cf.lookup "content" = some (.obj contf))
    (hparts : contf.lookup "parts" = some (.arr (.obj p0f :: ps)))
    (htext : p0f.lookup "text" = none) :
    (procesar_pdf_con_vision_y_gemini ⟨pdfPath, apiKey, .opened pages,
        .response ⟨code, reason, body, some (.obj fs), jem⟩⟩).result
      = .str "Respuesta de Gemini sin texto." := by
  simp [procesar_pdf_con_vision_y_gemini, cuerpo, hne, hcode, procesarRespuesta,
    procesarRespuestaInner, dictGet, pySubscriptStr, pyIndexZero, JSON.truthy,
    hcand, hcont, hparts, htext]

/-- Witness for C10: the first part carries only non-text keys. -/
theorem c10_parte_sin_texto_witness :
    (procesar_pdf_con_vision_y_gemini ⟨"orestes.pdf", "clave",
        .opened [.ocr ⟨"", some "balance"⟩],
        .response ⟨200, "OK", "cuerpo", some (.obj [("candidates",
          .arr [.obj [("content", .obj [("parts",
            .arr [.obj [("inlineData", .str "...")]])])]])]), "jerr"⟩⟩).result
      = .str "Respuesta de Gemini sin texto." :=
  c10_parte_sin_texto "orestes.pdf" "clave" [.ocr ⟨"", some "balance"⟩] 200 "OK" "cuerpo" "jerr"
    [("candidates", .arr [.obj [("content", .obj [("parts",
      .arr [.obj [("inlineData", .str "...")]])])]])]
    [("content", .obj [("parts", .arr [.obj [("inlineData", .str "...")]])])]
    [("parts", .arr [.obj [("inlineData", .str "...")]])]
    [("inlineData", .str "...")] [] []
    (by decide) (by decide) rfl rfl rfl rfl

/-- Claim C4 (code bug): when `requests.post` itself raises so no response
object was ever obtained, the source intends to return only the dedicated
request-error message (line 100), but the handler first evaluates
`if response_gemini is not None:` with `response_gemini` unbound, raising
`UnboundLocalError`; the outermost handler then returns the generic failure
string instead.  This theorem evaluates the pipeline at such an input: the
result is the generic string wrapping the `UnboundLocalError`, not the
dedicated request-error string the claim describes. -/
theorem c4_post_sin_respuesta :
    (procesar_pdf_con_vision_y_gemini ⟨"orestes.pdf", "clave",
        .opened [.ocr ⟨"", some "texto"⟩], .postRaises "Connection refused"⟩).result
      = .str ("Error general al procesar el PDF: "
          ++ pyExcMsg (.unboundLocal "response_gemini"))
    ∧ (procesar_pdf_con_vision_y_gemini ⟨"orestes.pdf", "clave",
        .opened [.ocr ⟨"", some "texto"⟩], .postRaises "Connection refused"⟩).result
      ≠ .str "Error en la solicitud a la API de Gemini: Connection refused" := by
  constructor
  · rfl
  · have h1 : (procesar_pdf_con_vision_y_gemini ⟨"orestes.pdf", "clave",
        .opened [.ocr ⟨"", some "texto"⟩], .postRaises "Connection refused"⟩).result
      = .str ("Error general al procesar el PDF: "
          ++ pyExcMsg (.unboundLocal "response_gemini")) := rfl
    rw [h1]
    intro h
    rw [JSON.str.injEq] at h
    exact absurd h (by decide)

/-- Claim C7 (amended): for a 4xx/5xx HTTP response whose body parses as
JSON, the result string is the dedicated request-error string built from the
`HTTPError` message and the parsed error body, and therefore contains both
the exception message and the body's content as substrings. -/
theorem c7_error_http_con_json (pdfPath apiKey : String) (pages : List PageOutcome)
    (code : Nat) (reason body jem : String) (j : JSON)
    (hne : texto_completo pages ≠ "")
    (hcode : 400 ≤ code ∧ code < 600) :
    (procesar_pdf_con_vision_y_gemini ⟨pdfPath, apiKey, .opened pages,
        .response ⟨code, reason, body, some j, jem⟩⟩).result
      = .str ("Error en la solicitud a la API de Gemini: "
          ++ (httpErrorMessage ⟨code, reason, body, some j, jem⟩ (requestUrl apiKey)
            ++ ("\nDetalles del error: " ++ JSON.pyStr j)))
    ∧ strContainsSub ("Error en la solicitud a la API de Gemini: "
          ++ (httpErrorMessage ⟨code, reason, body, some j, jem⟩ (requestUrl apiKey)
            ++ ("\nDetalles del error: " ++ JSON.pyStr j)))
        (httpErrorMessage ⟨code, reason, body, some j, jem⟩ (requestUrl apiKey)) = true
    ∧ strContainsSub ("Error en la solicitud a la API de Gemini: "
          ++ (httpErrorMessage ⟨code, reason, body, some j, jem⟩ (requestUrl apiKey)
            ++ ("\nDetalles del error: " ++ JSON.pyStr j)))
        (JSON.pyStr j) = true := by
  refine ⟨?_, ?_, ?_⟩
  · simp [procesar_pdf_con_vision_y_gemini, cuerpo, hne, hcode]
  · exact strContainsSub_parts "Error en la solicitud a la API de Gemini: "
      (httpErrorMessage ⟨code, reason, body, some j, jem⟩ (requestUrl apiKey))
      ("\nDetalles del error: " ++ JSON.pyStr j)
  · show occursIn (JSON.pyStr j).data
      (("Error en la solicitud a la API de Gemini: ").data
        ++ ((httpErrorMessage ⟨code, reason, body, some j, jem⟩ (requestUrl apiKey)).data
          ++ (("\nDetalles del error: ").data ++ (JSON.pyStr j).data))) = true
    exact occursIn_tail _ _ _ (occursIn_tail _ _ _ (occursIn_end _ _))

/-- Witness for C7 (amended): a 404 response with body `{"error": "quota"}`;
the result carries both the HTTPError message and the body's repr. -/
theorem c7_error_http_con_json_witness :
    (procesar_pdf_con_vision_y_gemini ⟨"orestes.pdf", "clave",
        .opened [.ocr ⟨"", some "balance"⟩],
        .response ⟨404, "Not Found", "cuerpo", some (.obj [("error", .str "quota")]),
          "jerr"⟩⟩).result
      = .str ("Error en la solicitud a la API de Gemini: "
          ++ (httpErrorMessage ⟨404, "Not Found", "cuerpo", some (.obj [("error", .str "quota")]),
                "jerr"⟩ (requestUrl "clave")
            ++ ("\nDetalles del error: " ++ JSON.pyStr (.obj [("error", .str "quota")]))))
    ∧ strContainsSub ("Error en la solicitud a la API de Gemini: "
          ++ (httpErrorMessage ⟨404, "Not Found", "cuerpo", some (.obj [("error", .str "quota")]),
                "jerr"⟩ (requestUrl "clave")
            ++ ("\nDetalles del error: " ++ JSON.pyStr (.obj [("error", .str "quota")]))))
        (httpErrorMessage ⟨404, "Not Found", "cuerpo", some (.obj [("error", .str "quota")]),
          "jerr"⟩ (requestUrl "clave")) = true
    ∧ strContainsSub ("Error en la solicitud a la API de Gemini: "
          ++ (httpErrorMessage ⟨404, "Not Found", "cuerpo", some (.obj [("error", .str "quota")]),
                "jerr"⟩ (requestUrl "clave")
            ++ ("\nDetalles del error: " ++ JSON.pyStr (.obj [("error", .str "quota")]))))
        (JSON.pyStr (.obj [("error", .str "quota")])) = true :=
  c7_error_http_con_json "orestes.pdf" "clave" [.ocr ⟨"", some "balance"⟩] 404 "Not Found"
    "cuerpo" "jerr" (.obj [("error", .str "quota")]) (by decide) (by decide)

/-- Claim C7 counterexample: a 304 response is non-2xx, yet
`raise_for_status` raises only for 4xx/5xx, so no exception occurs and the
body (here the JSON object with content "quota") is handed to the normal
response unwrapping, which returns the no-candidates error string; that
string contains neither the body's content "quota" nor the status "304", so
the claim fails as stated for non-2xx statuses outside 4xx/5xx. -/
theorem c7_counterexample :
    (procesar_pdf_con_vision_y_gemini ⟨"orestes.pdf", "clave",
        .opened [.ocr ⟨"", some "balance"⟩],
        .response ⟨304, "Not Modified", "cuerpo", some (.obj [("error", .str "quota")]),
          "jerr"⟩⟩).result
      = .str "Error: Respuesta de Gemini sin 'candidates'."
    ∧ strContainsSub "Error: Respuesta de Gemini sin 'candidates'." "quota" = false
    ∧ strContainsSub "Error: Respuesta de Gemini sin 'candidates'." "304" = false := by
  refine ⟨rfl, by decide, by decide⟩

/-- Claim C9 (amended): any exception raised inside the function body that
escapes every inner handler is caught by the outermost handler, and the
function returns the generic failure string built from it; the function
never propagates an exception to its caller (by construction `cuerpo`'s
error component is always intercepted here). -/
theorem c9_excepcion_capturada (inp : RunInput) (e : PyExc) (b : Bool)
    (h : cuerpo inp = (.error e, b)) :
    (procesar_pdf_con_vision_y_gemini inp).result
      = .str ("Error general al procesar el PDF: " ++ pyExcMsg e) := by
  simp [procesar_pdf_con_vision_y_gemini, h]

/-- Witness for C9 (amended): a top-level JSON array response; `.get` on a
list raises `AttributeError`, which no inner handler catches, and the
pipeline returns the generic failure string. -/
theorem c9_excepcion_capturada_witness :
    (procesar_pdf_con_vision_y_gemini ⟨"orestes.pdf", "clave",
        .opened [.ocr ⟨"", some "balance"⟩],
        .response ⟨200, "OK", "[]", some (.arr []), "jerr"⟩⟩).result
      = .str ("Error general al procesar el PDF: "
          ++ pyExcMsg (.attributeError "'list' object has no attribute 'get'")) :=
  c9_excepcion_capturada ⟨"orestes.pdf", "clave",
      .opened [.ocr ⟨"", some "balance"⟩], .response ⟨200, "OK", "[]", some (.arr []), "jerr"⟩⟩
    (.attributeError "'list' object has no attribute 'get'") true rfl

/-- Claim C9 counterexample: the pipeline does not always return a string.
When the response's first part maps `text` to the number 7, the source's
`parts[0].get('text', ...)` returns that value as-is, so the function
returns the Python int 7, not a str. -/
theorem c9_counterexample :
    (procesar_pdf_con_vision_y_gemini ⟨"orestes.pdf", "clave",
        .opened [.ocr ⟨"", some "balance"⟩],
        .response ⟨200, "OK", "cuerpo", some (.obj [("candidates",
          .arr [.obj [("content", .obj [("parts",
            .arr [.obj [("text", .num 7)]])])]])]), "jerr"⟩⟩).result
      = .num 7
    ∧ JSON.isStr (procesar_pdf_con_vision_y_gemini ⟨"orestes.pdf", "clave",
        .opened [.ocr ⟨"", some "balance"⟩],
        .response ⟨200, "OK", "cuerpo", some (.obj [("candidates",
          .arr [.obj [("content", .obj [("parts",
            .arr [.obj [("text", .num 7)]])])]])]), "jerr"⟩⟩).result = false :=
  ⟨rfl, rfl⟩
